import Mathlib

set_option autoImplicit false

/-!
Verification of the ss_anim_mcp job-orchestration core against its
natural-language specification.  Paths are modelled as lists of components,
filesystems as lists of existing paths, and the Python functions of
`server.py`, `models.py`, `config.py`, `aseprite_runner.py`, `queue.py` and
`detector.py` are translated into executable Lean definitions.
-/

/-! ## Path policy (`server.py`: `_is_within`, `_resolve_workspace_path`) -/

/-- Model of one step of `Path.resolve()` normalisation: `.` components are
dropped, `..` removes the previous component (staying at the root when there
is none), other components are appended. -/
def normStep (acc : List String) (c : String) : List String :=
  if c = "." then acc
  else if c = ".." then acc.dropLast
  else acc ++ [c]

/-- Lexical normalisation of an absolute path's components, modelling the
lexical part of `Path.resolve()` (symlinks are outside the model). -/
def normComps (cs : List String) : List String :=
  cs.foldl normStep []

/-- Model of a client-supplied path value before resolution: whether it has a
leading `~`, whether it is absolute, and its components. -/
structure RawPath where
  tilde : Bool
  absolute : Bool
  comps : List String
deriving DecidableEq, Repr

/-- Model of `Path.expanduser()`: a leading `~` is replaced by the home
directory, producing an absolute path; other paths are unchanged. -/
def expandUser (home : List String) (p : RawPath) : RawPath :=
  if p.tilde then { tilde := false, absolute := true, comps := home ++ p.comps }
  else p

/-- Model of `_is_within(root, path)` from `server.py`: `path.relative_to(root)`
succeeds exactly when `root`'s components are a lexical prefix of `path`'s
components (both already resolved and absolute). -/
def isWithin (root p : List String) : Bool :=
  root.isPrefixOf p

/-- Structured error returned by `_resolve_workspace_path` when a path escapes
the workspace, mirroring the `error_response` payload in `server.py`. -/
structure PathError where
  error_code : String
  field : String
  path : List String
  workspace_root : List String
deriving DecidableEq, Repr

/-- Candidate path selection of `_resolve_workspace_path`: an empty/absent
value falls back to the default (when given, else no path at all); otherwise
the value is `expanduser`-ed and, when relative, joined under the workspace
root.  In the source the empty string is caught by `value == ""` before any
`Path` is built, so `none` models both `None` and `""`. -/
def candidatePath (value : Option RawPath) (home : List String)
    (workspaceRoot : List String) (default? : Option (List String)) :
    Option (List String) :=
  match value with
  | none => default?
  | some v =>
      let cand := expandUser home v
      some (if cand.absolute then cand.comps else workspaceRoot ++ cand.comps)

/-- Model of `_resolve_workspace_path` from `server.py` (lines 75-110): pick
the candidate, resolve it, and unless `allow_external_paths` is set reject any
result not lexically under the resolved workspace root with a structured
`PATH_OUTSIDE_WORKSPACE` error carrying the field name, the offending path and
the workspace root. -/
def resolveWorkspacePath (value : Option RawPath) (home : List String)
    (workspaceRoot : List String) (allowExternal : Bool) (fieldName : String)
    (default? : Option (List String)) :
    Option (List String) × Option PathError :=
  match candidatePath value home workspaceRoot default? with
  | none => (none, none)
  | some path =>
      let resolved := normComps path
      let root := normComps workspaceRoot
      if !allowExternal && !(isWithin root resolved) then
        (none, some { error_code := "PATH_OUTSIDE_WORKSPACE", field := fieldName,
                      path := resolved, workspace_root := root })
      else
        (some resolved, none)

/-- C2: with `allow_external=false` every returned path is lexically under the
resolved workspace root; an escaping candidate yields no path and a structured
`PATH_OUTSIDE_WORKSPACE` error carrying the field name, the offending path and
the workspace root; and containment is lexical containment of resolved
component lists, which differs from a textual prefix check (witnessed by
`/ws` versus `/wsx/a`). -/
theorem resolve_workspace_path_containment :
    (∀ (value : Option RawPath) (home workspaceRoot : List String)
        (fieldName : String) (default? : Option (List String))
        (p : List String) (err : Option PathError),
      resolveWorkspacePath value home workspaceRoot false fieldName default? =
        (some p, err) →
      isWithin (normComps workspaceRoot) p = true)
    ∧ (∀ (value : Option RawPath) (home workspaceRoot : List String)
        (fieldName : String) (default? : Option (List String))
        (path : List String),
      candidatePath value home workspaceRoot default? = some path →
      isWithin (normComps workspaceRoot) (normComps path) = false →
      resolveWorkspacePath value home workspaceRoot false fieldName default? =
        (none, some { error_code := "PATH_OUTSIDE_WORKSPACE",
                      field := fieldName,
                      path := normComps path,
                      workspace_root := normComps workspaceRoot }))
    ∧ (isWithin ["ws"] ["wsx", "a"] = false
        ∧ List.isPrefixOf "/ws".data "/wsx/a".data = true
        ∧ ∀ root p : List String, isWithin root p = root.isPrefixOf p) := by
  refine ⟨?_, ?_, by decide, by decide, fun _ _ => rfl⟩
  · intro value home workspaceRoot fieldName default? p err h
    unfold resolveWorkspacePath at h
    cases hc : candidatePath value home workspaceRoot default? with
    | none => rw [hc] at h; exact absurd (congrArg Prod.fst h) (by simp)
    | some path =>
        rw [hc] at h
        simp only at h
        by_cases hw : isWithin (normComps workspaceRoot) (normComps path) = true
        · rw [if_neg (by simp [hw])] at h
          cases h
          exact hw
        · rw [if_pos (by simp [Bool.not_eq_true] at hw ⊢; exact hw)] at h
          exact absurd (congrArg Prod.fst h) (by simp)
  · intro value home workspaceRoot fieldName default? path hc hw
    unfold resolveWorkspacePath
    rw [hc]
    simp only
    rw [if_pos (by simp [hw])]

/-- Witness for C2 at concrete inputs: a relative value resolves under the
root and the theorem's containment conclusion evaluates to `true`. -/
theorem resolve_workspace_path_containment_witness :
    isWithin (normComps ["ws"]) ["ws", "a", "b"] = true :=
  resolve_workspace_path_containment.1
    (some { tilde := false, absolute := false, comps := ["a", "b"] })
    [] ["ws"] "input_path" none ["ws", "a", "b"] none (by decide)

/-- C5 counterexample: with an empty value, a default outside the workspace
root and `allow_external=false`, the operation does not return the default —
it returns no path and a `PATH_OUTSIDE_WORKSPACE` error, refuting the claim
that the default is returned even when it lies outside the root. -/
theorem resolve_default_outside_rejected :
    resolveWorkspacePath none [] ["ws"] false "processed_dir" (some ["tmp", "f"]) =
      (none, some { error_code := "PATH_OUTSIDE_WORKSPACE",
                    field := "processed_dir",
                    path := ["tmp", "f"],
                    workspace_root := ["ws"] })
    ∧ (resolveWorkspacePath none [] ["ws"] false "processed_dir"
        (some ["tmp", "f"])).1 ≠ some (normComps ["tmp", "f"]) := by
  constructor
  · decide
  · decide

/-- C5 amended: when the value is empty and a default is given the default is
used as the candidate and is subject to the same containment check: it is
returned whenever `allow_external=true` or it resolves under the workspace
root, and otherwise the call yields no path and a `PATH_OUTSIDE_WORKSPACE`
error instead of the default. -/
theorem resolve_default_checked (home workspaceRoot : List String)
    (fieldName : String) (d : List String) :
    (resolveWorkspacePath none home workspaceRoot true fieldName (some d) =
        (some (normComps d), none))
    ∧ (isWithin (normComps workspaceRoot) (normComps d) = true →
        resolveWorkspacePath none home workspaceRoot false fieldName (some d) =
          (some (normComps d), none))
    ∧ (isWithin (normComps workspaceRoot) (normComps d) = false →
        resolveWorkspacePath none home workspaceRoot false fieldName (some d) =
          (none, some { error_code := "PATH_OUTSIDE_WORKSPACE",
                        field := fieldName,
                        path := normComps d,
                        workspace_root := normComps workspaceRoot })) := by
  refine ⟨?_, ?_, ?_⟩
  · unfold resolveWorkspacePath candidatePath
    simp
  · intro hw
    unfold resolveWorkspacePath candidatePath
    simp only
    rw [if_neg (by simp [hw])]
  · intro hw
    unfold resolveWorkspacePath candidatePath
    simp only
    rw [if_pos (by simp [hw])]

/-- Witness for C5's amended theorem at concrete inputs: a default inside the
workspace is returned unchanged. -/
theorem resolve_default_checked_witness :
    resolveWorkspacePath none [] ["ws"] false "inbox_dir" (some ["ws", "inbox"]) =
      (some (normComps ["ws", "inbox"]), none) :=
  (resolve_default_checked [] ["ws"] "inbox_dir" ["ws", "inbox"]).2.1 (by decide)

/-! ## Conversion profiles (`config.py`) and sidecar overrides (`models.py`) -/

/-- Grid configuration (`config.py` lines 12-19).  All fields carry a
`ge`-style lower bound in the source; defaults mirror the pydantic defaults. -/
structure GridConfig where
  rows : Nat := 1
  cols : Nat := 1
  offset_x : Nat := 0
  offset_y : Nat := 0
  pad_x : Nat := 0
  pad_y : Nat := 0
deriving DecidableEq, Repr

/-- Timing configuration (`config.py` lines 22-25). -/
structure TimingConfig where
  fps : Nat := 12
  loop_mode : String := "loop"
deriving DecidableEq, Repr

/-- Anchor configuration (`config.py` lines 28-32); the float `x_band` is
modelled with rationals. -/
structure AnchorConfig where
  mode : String := "foot"
  alpha_thresh : Nat := 10
  x_band : Rat × Rat := (1/4, 3/4)
deriving DecidableEq, Repr

/-- Background configuration (`config.py` lines 35-39). -/
structure BackgroundConfig where
  mode : String := "transparent"
  color : Nat × Nat × Nat := (255, 255, 255)
  tolerance : Nat := 8
deriving DecidableEq, Repr

/-- Export configuration (`config.py` lines 42-50). -/
structure ExportConfig where
  aseprite : Bool := true
  sheet_png_json : Bool := true
  gif_preview : Bool := true
  sheet_padding_border : Nat := 2
  sheet_padding_inner : Nat := 2
  trim : Bool := false
  hq_gif : Bool := false
deriving DecidableEq, Repr

/-- Complete conversion profile (`config.py` lines 53-60).  The source field
`export` is a Lean keyword, so it is named `exportCfg` here. -/
structure ConversionProfile where
  name : String := "default"
  grid : GridConfig := {}
  timing : TimingConfig := {}
  anchor : AnchorConfig := {}
  background : BackgroundConfig := {}
  exportCfg : ExportConfig := {}
deriving DecidableEq, Repr

/-- Pydantic construction of `TimingConfig` exactly as the source declares it:
`fps` is bounds-checked (`ge=1, le=120`) and `loop_mode` is a plain `str`
field with no validator, so any string is accepted and stored verbatim. -/
def TimingConfig.construct (fps : Nat) (loop_mode : String) :
    Option TimingConfig :=
  if 1 ≤ fps ∧ fps ≤ 120 then some { fps := fps, loop_mode := loop_mode }
  else none

/-- Pydantic construction of `AnchorConfig` as the source declares it:
`alpha_thresh` is bounds-checked (`ge=0, le=255`) and `mode` is a plain `str`
field with no validator. -/
def AnchorConfig.construct (mode : String) (alpha_thresh : Nat) :
    Option AnchorConfig :=
  if alpha_thresh ≤ 255 then some { mode := mode, alpha_thresh := alpha_thresh }
  else none

/-- Pydantic construction of `BackgroundConfig` as the source declares it:
`tolerance` is bounds-checked (`ge=0, le=255`) and `mode` is a plain `str`
field with no validator. -/
def BackgroundConfig.construct (mode : String) (tolerance : Nat) :
    Option BackgroundConfig :=
  if tolerance ≤ 255 then some { mode := mode, tolerance := tolerance }
  else none

/-- Sidecar override spec (`models.py` lines 37-45): every profile sub-record
is optional, plus an optional `auto_detect_grid` flag. -/
structure JobOverrideSpec where
  grid : Option GridConfig := none
  timing : Option TimingConfig := none
  anchor : Option AnchorConfig := none
  background : Option BackgroundConfig := none
  exportCfg : Option ExportConfig := none
  auto_detect_grid : Option Bool := none
deriving DecidableEq, Repr

/-- Pydantic validation of a partial `grid` object inside a sidecar file:
fields absent from the JSON take the `GridConfig` defaults, and present
fields are checked against their lower bounds (`rows, cols >= 1`). -/
def gridOfFields (rows? cols? offx? offy? padx? pady? : Option Nat) :
    Option GridConfig :=
  let g : GridConfig :=
    { rows := rows?.getD 1, cols := cols?.getD 1,
      offset_x := offx?.getD 0, offset_y := offy?.getD 0,
      pad_x := padx?.getD 0, pad_y := pady?.getD 0 }
  if 1 ≤ g.rows ∧ 1 ≤ g.cols then some g else none

/-- Model of `apply_job_override` (`models.py` lines 74-90): each sub-record
present in the override replaces the profile's sub-record wholesale; absent
sub-records leave the profile unchanged. -/
def applyJobOverride (profile : ConversionProfile) (o : JobOverrideSpec) :
    ConversionProfile :=
  { profile with
    grid := o.grid.getD profile.grid,
    timing := o.timing.getD profile.timing,
    anchor := o.anchor.getD profile.anchor,
    background := o.background.getD profile.background,
    exportCfg := o.exportCfg.getD profile.exportCfg }

/-- Model of `apply_tool_overrides` (`models.py` lines 93-107): only the
provided scalar fields are set. -/
def applyToolOverrides (profile : ConversionProfile)
    (grid_rows grid_cols fps : Option Nat) : ConversionProfile :=
  { profile with
    grid := { profile.grid with
              rows := grid_rows.getD profile.grid.rows,
              cols := grid_cols.getD profile.grid.cols },
    timing := { profile.timing with fps := fps.getD profile.timing.fps } }

/-- C1 counterexample: a sidecar override whose `grid` object sets only
`rows` does not leave the profile's `cols`, offsets and padding as they were;
validation fills the absent fields with `GridConfig` defaults and
`apply_job_override` replaces the whole grid, so a profile with `cols = 7`
ends up with `cols = 1`. -/
theorem apply_job_override_partial_grid_resets :
    (gridOfFields (some 3) none none none none none = some { rows := 3 })
    ∧ ((applyJobOverride
          { name := "game_default",
            grid := { rows := 2, cols := 7, offset_x := 3, offset_y := 4,
                      pad_x := 5, pad_y := 6 } }
          { grid := some { rows := 3 } }).grid
        = { rows := 3, cols := 1, offset_x := 0, offset_y := 0,
            pad_x := 0, pad_y := 0 }) := by
  constructor
  · rfl
  · rfl

/-- C1 amended: `apply_job_override` works sub-record by sub-record, not
field by field: a sub-record present in the override replaces the profile's
sub-record wholesale (fields omitted from the sidecar JSON having been filled
with the sub-record type's defaults at validation), a sub-record absent from
the override leaves the profile's sub-record unchanged, and the profile name
is never touched. -/
theorem apply_job_override_subrecords (p : ConversionProfile)
    (o : JobOverrideSpec) :
    ((∀ g, o.grid = some g → (applyJobOverride p o).grid = g)
      ∧ (o.grid = none → (applyJobOverride p o).grid = p.grid))
    ∧ ((∀ t, o.timing = some t → (applyJobOverride p o).timing = t)
      ∧ (o.timing = none → (applyJobOverride p o).timing = p.timing))
    ∧ ((∀ a, o.anchor = some a → (applyJobOverride p o).anchor = a)
      ∧ (o.anchor = none → (applyJobOverride p o).anchor = p.anchor))
    ∧ ((∀ b, o.background = some b → (applyJobOverride p o).background = b)
      ∧ (o.background = none → (applyJobOverride p o).background = p.background))
    ∧ ((∀ e, o.exportCfg = some e → (applyJobOverride p o).exportCfg = e)
      ∧ (o.exportCfg = none → (applyJobOverride p o).exportCfg = p.exportCfg))
    ∧ (applyJobOverride p o).name = p.name := by
  refine ⟨⟨?_, ?_⟩, ⟨?_, ?_⟩, ⟨?_, ?_⟩, ⟨?_, ?_⟩, ⟨?_, ?_⟩, rfl⟩ <;>
    intros <;> simp [applyJobOverride, *]

/-- Witness for C1's amended theorem at a concrete profile and override. -/
theorem apply_job_override_subrecords_witness :
    (applyJobOverride { name := "game_default", grid := { cols := 7 } }
        { grid := some { rows := 3 } }).grid = { rows := 3 } :=
  (apply_job_override_subrecords
      { name := "game_default", grid := { cols := 7 } }
      { grid := some { rows := 3 } }).1.1 { rows := 3 } rfl

/-- C3: the code contradicts its own test suite (`test_config_validation.py`):
the mode fields of `TimingConfig`, `AnchorConfig` and `BackgroundConfig` have
no validator, so an upper-case value is stored verbatim instead of being
lowercased, and a value outside the documented enum set is accepted instead
of failing construction. -/
theorem mode_strings_not_validated :
    (TimingConfig.construct 12 "PINGPONG"
        = some { fps := 12, loop_mode := "PINGPONG" }
      ∧ (TimingConfig.construct 12 "PINGPONG").map (fun t => t.loop_mode)
          ≠ some "pingpong"
      ∧ (TimingConfig.construct 12 "nope").isSome = true)
    ∧ (AnchorConfig.construct "FOOT" 10
        = some { mode := "FOOT", alpha_thresh := 10 }
      ∧ (AnchorConfig.construct "bad" 10).isSome = true)
    ∧ (BackgroundConfig.construct "Transparent" 8
        = some { mode := "Transparent", tolerance := 8 }
      ∧ (BackgroundConfig.construct "bad" 8).isSome = true) := by
  refine ⟨⟨rfl, ?_, rfl⟩, ⟨rfl, rfl⟩, ⟨rfl, rfl⟩⟩
  decide

/-! ## Script-reported failures (`aseprite_runner.py`) -/

/-- Model of Python's `str.lower()` for the ASCII range: upper-case letters
are shifted into lower case, all other characters are unchanged. -/
def asciiLower (c : Char) : Char :=
  if 'A' ≤ c ∧ c ≤ 'Z' then Char.ofNat (c.toNat + 32) else c

/-- Model of `str.lower()` as the character-wise ASCII lowering. -/
def pyLower (s : String) : String :=
  ⟨s.data.map asciiLower⟩

/-- Python whitespace test used by `str.strip()` (the characters relevant to
this model). -/
def isPySpace (c : Char) : Bool :=
  c = ' ' ∨ c = '\t' ∨ c = '\n' ∨ c = '\r'

/-- Model of `str.strip()`: leading and trailing whitespace removed. -/
def pyStrip (s : String) : String :=
  ⟨((s.data.dropWhile isPySpace).reverse.dropWhile isPySpace).reverse⟩

/-- Model of a parsed JSON value as far as `_interpret_meta_failure` inspects
one: scalars are represented exactly; arrays and objects, which the failure
interpreter never looks inside, are collapsed to `other` carrying only their
Python truthiness. -/
inductive JVal where
  | null
  | bool (b : Bool)
  | num (n : Int)
  | str (s : String)
  | other (truthy : Bool)
deriving DecidableEq, Repr

/-- Python truthiness of a JSON value (`None`, `False`, `0`, `""` and empty
containers are falsy). -/
def jtruthy : JVal → Bool
  | .null => false
  | .bool b => b
  | .num n => n ≠ 0
  | .str s => s ≠ ""
  | .other t => t

/-- Truthiness of a `dict.get` result (absent key gives `None`, falsy). -/
def optTruthy : Option JVal → Bool
  | none => false
  | some v => jtruthy v

/-- Model of Python's `a or b` over `dict.get` results. -/
def pyOr (a b : Option JVal) : Option JVal :=
  if optTruthy a then a else b

/-- Model of `_interpret_meta_failure` (`aseprite_runner.py` lines 55-72):
a non-string `status` or one whose stripped, lowercased form is not in
`{failed, error}` yields no failure; otherwise the error code is the stripped
`error_code` when that is a non-blank string (else `LUA_REPORTED_FAILURE`)
and the message is the stripped `error_message`-or-`error` value when that is
a non-blank string (else `"Lua conversion failed"`). -/
def interpretMetaFailure (m : List (String × JVal)) :
    Option String × Option String :=
  match m.lookup "status" with
  | some (.str status) =>
      let normalized := pyLower (pyStrip status)
      if normalized = "failed" ∨ normalized = "error" then
        let code :=
          match m.lookup "error_code" with
          | some (.str s) =>
              if pyStrip s = "" then "LUA_REPORTED_FAILURE" else pyStrip s
          | _ => "LUA_REPORTED_FAILURE"
        let message :=
          match pyOr (m.lookup "error_message") (m.lookup "error") with
          | some (.str s) =>
              if pyStrip s = "" then "Lua conversion failed" else pyStrip s
          | _ => "Lua conversion failed"
        (some code, some message)
      else (none, none)
  | _ => (none, none)

/-- The failure-result fields of a `ConvertResult` that the exit-zero
classification determines. -/
structure ConvertResultM where
  success : Bool
  error_code : Option String := none
  error_message : Option String := none
deriving DecidableEq, Repr

/-- Outcome of the exit-zero branch of `run_conversion`, recording whether
control reached `_validate_job_outputs`. -/
structure ExitZeroStep where
  result : ConvertResultM
  validatorRan : Bool
deriving DecidableEq, Repr

/-- Model of `run_conversion`'s exit-zero branch (`aseprite_runner.py` lines
268-311): when `meta.json` exists it is parsed (a JSON decode error leaving an
empty dict), `_interpret_meta_failure` is consulted, and a reported failure
returns a failure result immediately — before `_parse_results` and
`_validate_job_outputs`.  `metaFile = none` models an absent `meta.json`;
`some none` a file that fails to parse; `some (some m)` a parsed object.  The
`validation` parameter stands for the result of the rest of the pipeline
(parse, HQ preview, output validation), which runs exactly when
`validatorRan` is true. -/
def classifyExitZero (metaFile : Option (Option (List (String × JVal))))
    (validation : ConvertResultM) : ExitZeroStep :=
  match metaFile with
  | none => { result := validation, validatorRan := true }
  | some parse =>
      let metaData := parse.getD []
      match interpretMetaFailure metaData with
      | (some code, some msg) =>
          if code ≠ "" ∧ msg ≠ "" then
            { result := { success := false, error_code := some code,
                          error_message := some msg },
              validatorRan := false }
          else { result := validation, validatorRan := true }
      | _ => { result := validation, validatorRan := true }

/-- Helper: under a failed/error status, `_interpret_meta_failure` returns
exactly the stripped code and message with their defaults. -/
theorem interpretMetaFailure_eq (m : List (String × JVal)) (s : String)
    (hs : m.lookup "status" = some (.str s))
    (hn : pyLower (pyStrip s) = "failed" ∨ pyLower (pyStrip s) = "error") :
    interpretMetaFailure m =
      (some (match m.lookup "error_code" with
             | some (.str c) =>
                 if pyStrip c = "" then "LUA_REPORTED_FAILURE" else pyStrip c
             | _ => "LUA_REPORTED_FAILURE"),
       some (match pyOr (m.lookup "error_message") (m.lookup "error") with
             | some (.str c) =>
                 if pyStrip c = "" then "Lua conversion failed" else pyStrip c
             | _ => "Lua conversion failed")) := by
  unfold interpretMetaFailure
  rw [hs]
  simp only [if_pos hn]

/-- Helper: the code and message produced by the failure interpreter are
never the empty string. -/
theorem interpretMetaFailure_ne_empty (v : Option JVal) (dflt : String)
    (hd : dflt ≠ "") :
    (match v with
     | some (.str c) => if pyStrip c = "" then dflt else pyStrip c
     | _ => dflt) ≠ "" := by
  match v with
  | none => exact hd
  | some .null => exact hd
  | some (.bool b) => exact hd
  | some (.num n) => exact hd
  | some (.other t) => exact hd
  | some (.str c) =>
      by_cases hc : pyStrip c = ""
      · simp only [if_pos hc]; exact hd
      · simp only [if_neg hc]; exact hc

/-- C4 counterexample: with exit code zero and
`meta.json = {"status": "failed", "error_code": "  X  ", "error_message": "boom"}`,
the runner reports error code `"X"`, not the meta.json `error_code` value
`"  X  "` — the code is whitespace-stripped before use, refuting the claim
that the result's error code equals the meta.json error code. -/
theorem meta_failure_code_stripped :
    (classifyExitZero
        (some (some [("status", .str "failed"), ("error_code", .str "  X  "),
                     ("error_message", .str "boom")]))
        { success := true }).result.error_code = some "X"
    ∧ some "X" ≠ some "  X  " := by
  constructor
  · decide
  · decide

/-- C4 amended: for every job whose external tool exits zero and whose parsed
`meta.json` has a string `status` that strips and lowercases to `failed` or
`error`, the runner returns a failure result without running the output
validator; its error code is the whitespace-stripped `error_code` when that
field is a non-blank string and `LUA_REPORTED_FAILURE` otherwise (absent,
non-string or blank), and its error message is likewise the stripped
`error_message`-or-`error` value or `"Lua conversion failed"`. -/
theorem meta_failure_classified (m : List (String × JVal))
    (validation : ConvertResultM) (s : String)
    (hs : m.lookup "status" = some (.str s))
    (hn : pyLower (pyStrip s) = "failed" ∨ pyLower (pyStrip s) = "error") :
    (classifyExitZero (some (some m)) validation).validatorRan = false
    ∧ (classifyExitZero (some (some m)) validation).result.success = false
    ∧ (classifyExitZero (some (some m)) validation).result.error_code =
        some (match m.lookup "error_code" with
              | some (.str c) =>
                  if pyStrip c = "" then "LUA_REPORTED_FAILURE" else pyStrip c
              | _ => "LUA_REPORTED_FAILURE")
    ∧ (classifyExitZero (some (some m)) validation).result.error_message =
        some (match pyOr (m.lookup "error_message") (m.lookup "error") with
              | some (.str c) =>
                  if pyStrip c = "" then "Lua conversion failed" else pyStrip c
              | _ => "Lua conversion failed") := by
  have hcode := interpretMetaFailure_ne_empty (m.lookup "error_code")
    "LUA_REPORTED_FAILURE" (by decide)
  have hmsg := interpretMetaFailure_ne_empty
    (pyOr (m.lookup "error_message") (m.lookup "error"))
    "Lua conversion failed" (by decide)
  have h : classifyExitZero (some (some m)) validation =
      { result := { success := false,
                    error_code := some (match m.lookup "error_code" with
                      | some (.str c) =>
                          if pyStrip c = "" then "LUA_REPORTED_FAILURE"
                          else pyStrip c
                      | _ => "LUA_REPORTED_FAILURE"),
                    error_message :=
                      some (match pyOr (m.lookup "error_message") (m.lookup "error") with
                        | some (.str c) =>
                            if pyStrip c = "" then "Lua conversion failed"
                            else pyStrip c
                        | _ => "Lua conversion failed") },
        validatorRan := false } := by
    unfold classifyExitZero
    simp only [Option.getD_some]
    rw [interpretMetaFailure_eq m s hs hn]
    simp only [if_pos (And.intro hcode hmsg)]
  rw [h]
  exact ⟨rfl, rfl, rfl, rfl⟩

/-- Witness for C4's amended theorem at the spec's E3 scenario:
`meta.json = {"status": "failed", "error_code": "INPUT_NOT_FOUND",
"error_message": "Input file not found: /tmp/foo.png"}` yields a failure with
exactly that code and message, and the validator does not run. -/
theorem meta_failure_classified_witness :
    (classifyExitZero
        (some (some [("status", .str "failed"),
                     ("error_code", .str "INPUT_NOT_FOUND"),
                     ("error_message", .str "Input file not found: /tmp/foo.png")]))
        { success := true }).validatorRan = false :=
  (meta_failure_classified
      [("status", .str "failed"), ("error_code", .str "INPUT_NOT_FOUND"),
       ("error_message", .str "Input file not found: /tmp/foo.png")]
      { success := true } "failed" rfl (Or.inl (by decide))).1

/-! ## Queue disposition (`queue.py`: `create_failure_run_dir`,
`JobQueue._move_to_processed`, `JobQueue._move_to_failed`)

Filesystem paths are lists of components; a filesystem is the list of paths
that currently exist.  Directory-name rendering (`f"{timestamp}_{counter}"`,
`f"{stem}_{counter}{suffix}"`) is modelled down to characters so that
distinctness of rendered names is proved, not assumed. -/

/-- Two strings with the same character data are equal. -/
theorem string_data_inj {s t : String} (h : s.data = t.data) : s = t := by
  cases s with
  | mk d1 => cases t with
    | mk d2 => exact congrArg String.mk h

/-- Decimal digit character, as produced by Python's `str` on a digit. -/
def digitCh (d : Nat) : Char :=
  Char.ofNat (48 + d)

/-- Decimal rendering of a natural number (most significant digit first),
modelling Python's `str(n)` for positive `n`. -/
def natRepr (n : Nat) : String :=
  ⟨((Nat.digits 10 n).reverse.map digitCh)⟩

/-- The digit-to-character map is injective on decimal digits. -/
theorem digitCh_inj : ∀ d1 < 10, ∀ d2 < 10, digitCh d1 = digitCh d2 → d1 = d2 := by
  decide

/-- Character rendering of digit lists is injective when all entries are
decimal digits. -/
theorem map_digitCh_inj : ∀ (l1 l2 : List Nat), (∀ d ∈ l1, d < 10) →
    (∀ d ∈ l2, d < 10) → l1.map digitCh = l2.map digitCh → l1 = l2 := by
  intro l1
  induction l1 with
  | nil =>
      intro l2 _ _ h
      cases l2 with
      | nil => rfl
      | cons b t => exact absurd h (by simp)
  | cons a t ih =>
      intro l2 h1 h2 h
      cases l2 with
      | nil => exact absurd h (by simp)
      | cons b t2 =>
          simp only [List.map_cons, List.cons.injEq] at h
          have ha : a = b :=
            digitCh_inj a (h1 a (by simp)) b (h2 b (by simp)) h.1
          have ht : t = t2 :=
            ih t2 (fun d hd => h1 d (by simp [hd])) (fun d hd => h2 d (by simp [hd])) h.2
          rw [ha, ht]

/-- Decimal rendering is injective. -/
theorem natRepr_inj : Function.Injective natRepr := by
  intro m n h
  have hd : ((Nat.digits 10 m).reverse.map digitCh)
      = ((Nat.digits 10 n).reverse.map digitCh) := congrArg String.data h
  have hrev : (Nat.digits 10 m).reverse = (Nat.digits 10 n).reverse :=
    map_digitCh_inj _ _
      (fun d hd' => Nat.digits_lt_base (by norm_num) (List.mem_reverse.mp hd'))
      (fun d hd' => Nat.digits_lt_base (by norm_num) (List.mem_reverse.mp hd'))
      hd
  have hdig : Nat.digits 10 m = Nat.digits 10 n := List.reverse_injective hrev
  calc m = Nat.ofDigits 10 (Nat.digits 10 m) := (Nat.ofDigits_digits 10 m).symm
    _ = Nat.ofDigits 10 (Nat.digits 10 n) := by rw [hdig]
    _ = n := Nat.ofDigits_digits 10 n

/-- Name of the `k`-th failure run-directory candidate for a timestamp:
`timestamp` itself first, then `timestamp_1`, `timestamp_2`, … exactly as
`create_failure_run_dir` renders them. -/
def runDirName (ts : String) : Nat → String
  | 0 => ts
  | k + 1 => ts ++ "_" ++ natRepr (k + 1)

/-- Distinct candidate indices render to distinct directory names. -/
theorem runDirName_inj (ts : String) : Function.Injective (runDirName ts) := by
  have hlen : ∀ k : Nat, ts ≠ ts ++ "_" ++ natRepr (k + 1) := by
    intro k h
    have h2 : ts.data.length = (ts ++ "_" ++ natRepr (k + 1)).data.length :=
      congrArg (fun s => s.data.length) h
    simp [String.data_append] at h2
  intro i j h
  match i, j with
  | 0, 0 => rfl
  | 0, j + 1 => exact absurd h (hlen j)
  | i + 1, 0 => exact absurd h.symm (hlen i)
  | i + 1, j + 1 =>
      have hd := congrArg String.data h
      simp only [String.data_append, List.append_assoc, List.cons_append,
        List.nil_append] at hd
      have h3 := List.append_cancel_left hd
      simp only [List.cons.injEq, true_and] at h3
      exact natRepr_inj (string_data_inj h3)

/-- The `k`-th full candidate path `failed_root / stem / <name_k>`. -/
def failureCandidate (failedRoot : List String) (stem ts : String) (k : Nat) :
    List String :=
  failedRoot ++ [stem, runDirName ts k]

/-- Distinct indices give distinct candidate paths. -/
theorem failureCandidate_inj (failedRoot : List String) (stem ts : String) :
    Function.Injective (failureCandidate failedRoot stem ts) := by
  intro i j h
  have := List.append_cancel_left h
  simp only [List.cons.injEq] at this
  exact runDirName_inj ts this.2.1

/-- The `while candidate.exists()` search of `create_failure_run_dir` (and of
the collision loops in `_move_to_processed` / `_move_to_failed`): try
candidate `k`, advancing while the candidate exists.  The Python loop carries
no fuel; here the fuel argument is set by callers to `|fs| + 1`, which the
pigeonhole argument below proves sufficient. -/
def searchFreeDir (fs : List (List String)) (cand : Nat → List String) :
    Nat → Nat → List String
  | 0, k => cand k
  | fuel + 1, k => if cand k ∈ fs then searchFreeDir fs cand fuel (k + 1) else cand k

/-- If some candidate in the fuel window is free, the search returns a free
candidate. -/
theorem searchFreeDir_not_mem (fs : List (List String)) (cand : Nat → List String) :
    ∀ (fuel k : Nat), (∃ j, k ≤ j ∧ j < k + fuel ∧ cand j ∉ fs) →
      searchFreeDir fs cand fuel k ∉ fs := by
  intro fuel
  induction fuel with
  | zero =>
      intro k ⟨j, h1, h2, _⟩
      omega
  | succ fuel ih =>
      intro k ⟨j, h1, h2, hfree⟩
      unfold searchFreeDir
      by_cases hk : cand k ∈ fs
      · rw [if_pos hk]
        refine ih (k + 1) ⟨j, ?_, by omega, hfree⟩
        rcases Nat.eq_or_lt_of_le h1 with heq | hlt
        · exact absurd (heq ▸ hfree) (by exact fun hc => hc hk)
        · omega
      · rw [if_neg hk]
        exact hk

/-- Pigeonhole: an injective candidate sequence has a free index among the
first `|fs| + 1` indices. -/
theorem exists_free_candidate (fs : List (List String)) (cand : Nat → List String)
    (hinj : Function.Injective cand) :
    ∃ j, j < fs.length + 1 ∧ cand j ∉ fs := by
  by_contra hcon
  push_neg at hcon
  have hall : ∀ j ∈ List.range (fs.length + 1), cand j ∈ fs := fun j hj =>
    hcon j (List.mem_range.mp hj)
  have hnd : ((List.range (fs.length + 1)).map cand).Nodup :=
    List.Nodup.map hinj (List.nodup_range _)
  have hsub : ((List.range (fs.length + 1)).map cand).toFinset ⊆ fs.toFinset := by
    intro x hx
    rw [List.mem_toFinset] at hx ⊢
    rcases List.mem_map.mp hx with ⟨j, hj, rfl⟩
    exact hall j hj
  have h1 : ((List.range (fs.length + 1)).map cand).toFinset.card
      = fs.length + 1 := by
    rw [List.toFinset_card_of_nodup hnd]
    simp
  have h2 := Finset.card_le_card hsub
  have h3 := List.toFinset_card_le fs
  omega

/-- Model of `create_failure_run_dir` (`queue.py` lines 31-39): starting from
`failed_root / stem / timestamp`, increment the numeric suffix while the
candidate exists, then create and return the directory. -/
def createFailureRunDir (fs : List (List String)) (failedRoot : List String)
    (stem ts : String) : List String :=
  searchFreeDir fs (failureCandidate failedRoot stem ts) (fs.length + 1) 0

/-- The run directory returned by `create_failure_run_dir` never previously
existed. -/
theorem createFailureRunDir_fresh (fs : List (List String))
    (failedRoot : List String) (stem ts : String) :
    createFailureRunDir fs failedRoot stem ts ∉ fs := by
  rcases exists_free_candidate fs (failureCandidate failedRoot stem ts)
    (failureCandidate_inj failedRoot stem ts) with ⟨j, hj, hfree⟩
  exact searchFreeDir_not_mem fs _ (fs.length + 1) 0 ⟨j, Nat.zero_le j, by omega, hfree⟩

/-- The search always returns one of the candidates. -/
theorem searchFreeDir_is_candidate (fs : List (List String))
    (cand : Nat → List String) :
    ∀ (fuel k : Nat), ∃ j, searchFreeDir fs cand fuel k = cand j := by
  intro fuel
  induction fuel with
  | zero => exact fun k => ⟨k, rfl⟩
  | succ fuel ih =>
      intro k
      unfold searchFreeDir
      by_cases hk : cand k ∈ fs
      · rw [if_pos hk]; exact ih (k + 1)
      · rw [if_neg hk]; exact ⟨k, rfl⟩

/-- Name of the `k`-th collision-avoiding destination file name used by the
move helpers: `stem+suffix` (the original name) first, then
`stem_1+suffix`, `stem_2+suffix`, … -/
def destFileName (stem suffix : String) : Nat → String
  | 0 => stem ++ suffix
  | k + 1 => stem ++ "_" ++ natRepr (k + 1) ++ suffix

/-- Distinct collision counters render to distinct destination names. -/
theorem destFileName_inj (stem suffix : String) :
    Function.Injective (destFileName stem suffix) := by
  have hlen : ∀ k : Nat,
      stem ++ suffix ≠ stem ++ "_" ++ natRepr (k + 1) ++ suffix := by
    intro k h
    have h2 : (stem ++ suffix).data.length
        = (stem ++ "_" ++ natRepr (k + 1) ++ suffix).data.length :=
      congrArg (fun s => s.data.length) h
    simp [String.data_append] at h2
    omega
  intro i j h
  match i, j with
  | 0, 0 => rfl
  | 0, j + 1 => exact absurd h (hlen j)
  | i + 1, 0 => exact absurd h.symm (hlen i)
  | i + 1, j + 1 =>
      unfold destFileName at h
      have hd := congrArg String.data h
      simp only [String.data_append, List.append_assoc, List.cons_append,
        List.nil_append] at hd
      have h3 := List.append_cancel_left hd
      simp only [List.cons.injEq, true_and] at h3
      have h4 := List.append_cancel_right h3
      exact natRepr_inj (string_data_inj h4)

/-- Destination chosen by the `while dest.exists()` loop of
`_move_to_failed`: the first free candidate `fail_dir / <name_k>`, searched
against the filesystem as it stands after the run directory was created. -/
def moveToFailedDest (fs : List (List String)) (failDir : List String)
    (stem suffix : String) : List String :=
  searchFreeDir fs (fun k => failDir ++ [destFileName stem suffix k])
    (fs.length + 1) 0

/-- The chosen destination is a path that does not yet exist. -/
theorem moveToFailedDest_not_mem (fs : List (List String))
    (failDir : List String) (stem suffix : String) :
    moveToFailedDest fs failDir stem suffix ∉ fs := by
  have hinj : Function.Injective
      (fun k => failDir ++ [destFileName stem suffix k]) := by
    intro i j h
    have h2 := List.append_cancel_left h
    simp only [List.cons.injEq, and_true] at h2
    exact destFileName_inj stem suffix h2
  rcases exists_free_candidate fs _ hinj with ⟨j, hj, hfree⟩
  exact searchFreeDir_not_mem fs _ (fs.length + 1) 0
    ⟨j, Nat.zero_le j, by omega, hfree⟩

/-- Model of `JobQueue._move_to_failed` (`queue.py` lines 303-328): a missing
input is a no-op returning `(None, None)`; otherwise a fresh failure run
directory is created, the input is moved into it under a collision-avoiding
name, and when the error message is truthy an `error.txt` is written inside
the run directory and returned as the error-log path. -/
def moveToFailed (fs : List (List String)) (inputPath : List String)
    (stem suffix : String) (errorMessage : Option String)
    (failedRoot : List String) (ts : String) :
    List (List String) × Option (List String) × Option (List String) :=
  if inputPath ∈ fs then
    let failDir := createFailureRunDir fs failedRoot stem ts
    let fs1 := fs ++ [failDir]
    let dest := moveToFailedDest fs1 failDir stem suffix
    let fs2 := (fs1.erase inputPath) ++ [dest]
    match errorMessage with
    | some msg =>
        if msg ≠ "" then
          (fs2 ++ [failDir ++ ["error.txt"]], some failDir,
            some (failDir ++ ["error.txt"]))
        else (fs2, some failDir, none)
    | none => (fs2, some failDir, none)
  else (fs, none, none)

/-- Model of `JobQueue._move_to_processed` (`queue.py` lines 289-301): a
missing input is a no-op; otherwise the input is moved into the processed
directory under a collision-avoiding name. -/
def moveToProcessed (fs : List (List String)) (inputPath : List String)
    (stem suffix : String) (targetRoot : List String) : List (List String) :=
  if inputPath ∈ fs then
    let dest := searchFreeDir fs
      (fun k => targetRoot ++ [destFileName stem suffix k]) (fs.length + 1) 0
    (fs.erase inputPath) ++ [dest]
  else fs

/-- C6: the unique-run-dir helper returns a directory that did not previously
exist; a failure disposition with an existing input and a non-empty error
message reports that fresh run directory and its `error.txt`; the resulting
filesystem is exactly the previous one with the run directory added, the
input path removed (the move's source) and the move's destination added —
a previously non-existent path inside the run directory bearing the input's
name or its collision-suffixed variant — plus the `error.txt`; and the run
directories of two successive failure dispositions with the same stem are
always distinct. -/
theorem failure_run_dir_unique (fs : List (List String))
    (failedRoot : List String) (stem suffix : String) (ts : String)
    (inputPath : List String) (msg : String)
    (h1 : inputPath ∈ fs) (hmsg : msg ≠ "") :
    (∀ (fs0 : List (List String)) (r : List String) (st t : String),
        createFailureRunDir fs0 r st t ∉ fs0)
    ∧ ((moveToFailed fs inputPath stem suffix (some msg) failedRoot ts).2.1 =
          some (createFailureRunDir fs failedRoot stem ts)
        ∧ (moveToFailed fs inputPath stem suffix (some msg) failedRoot ts).2.2 =
          some (createFailureRunDir fs failedRoot stem ts ++ ["error.txt"])
        ∧ createFailureRunDir fs failedRoot stem ts ++ ["error.txt"]
            ∈ (moveToFailed fs inputPath stem suffix (some msg) failedRoot ts).1)
    ∧ ((moveToFailed fs inputPath stem suffix (some msg) failedRoot ts).1 =
          ((fs ++ [createFailureRunDir fs failedRoot stem ts]).erase inputPath ++
            [moveToFailedDest (fs ++ [createFailureRunDir fs failedRoot stem ts])
              (createFailureRunDir fs failedRoot stem ts) stem suffix]) ++
          [createFailureRunDir fs failedRoot stem ts ++ ["error.txt"]]
        ∧ (∃ j, moveToFailedDest (fs ++ [createFailureRunDir fs failedRoot stem ts])
              (createFailureRunDir fs failedRoot stem ts) stem suffix =
            createFailureRunDir fs failedRoot stem ts ++ [destFileName stem suffix j])
        ∧ moveToFailedDest (fs ++ [createFailureRunDir fs failedRoot stem ts])
            (createFailureRunDir fs failedRoot stem ts) stem suffix ∉ fs
        ∧ moveToFailedDest (fs ++ [createFailureRunDir fs failedRoot stem ts])
            (createFailureRunDir fs failedRoot stem ts) stem suffix
            ∈ (moveToFailed fs inputPath stem suffix (some msg) failedRoot ts).1)
    ∧ (∀ (inputPath2 : List String) (suffix2 ts2 : String)
          (msg2 : Option String) (d2 : List String),
        (moveToFailed (moveToFailed fs inputPath stem suffix (some msg) failedRoot ts).1
            inputPath2 stem suffix2 msg2 failedRoot ts2).2.1 = some d2 →
        d2 ≠ createFailureRunDir fs failedRoot stem ts) := by
  have hfresh := createFailureRunDir_fresh fs failedRoot stem ts
  have hne : createFailureRunDir fs failedRoot stem ts ≠ inputPath :=
    fun hc => hfresh (hc ▸ h1)
  have hmove : moveToFailed fs inputPath stem suffix (some msg) failedRoot ts =
      (((fs ++ [createFailureRunDir fs failedRoot stem ts]).erase inputPath ++
          [moveToFailedDest (fs ++ [createFailureRunDir fs failedRoot stem ts])
            (createFailureRunDir fs failedRoot stem ts) stem suffix]) ++
        [createFailureRunDir fs failedRoot stem ts ++ ["error.txt"]],
       some (createFailureRunDir fs failedRoot stem ts),
       some (createFailureRunDir fs failedRoot stem ts ++ ["error.txt"])) := by
    unfold moveToFailed
    rw [if_pos h1]
    simp only [if_pos hmsg]
  have hdirmem : createFailureRunDir fs failedRoot stem ts
      ∈ (moveToFailed fs inputPath stem suffix (some msg) failedRoot ts).1 := by
    rw [hmove]
    simp only [List.mem_append]
    left; left
    rw [List.mem_erase_of_ne hne]
    simp
  refine ⟨fun fs0 r st t => createFailureRunDir_fresh fs0 r st t,
    ⟨?_, ?_, ?_⟩, ⟨?_, ?_, ?_, ?_⟩, ?_⟩
  · rw [hmove]
  · rw [hmove]
  · rw [hmove]; simp
  · rw [hmove]
  · unfold moveToFailedDest
    exact searchFreeDir_is_candidate
      (fs ++ [createFailureRunDir fs failedRoot stem ts])
      (fun k => createFailureRunDir fs failedRoot stem ts ++
        [destFileName stem suffix k])
      ((fs ++ [createFailureRunDir fs failedRoot stem ts]).length + 1) 0
  · intro hc
    exact moveToFailedDest_not_mem
      (fs ++ [createFailureRunDir fs failedRoot stem ts])
      (createFailureRunDir fs failedRoot stem ts) stem suffix
      (by simp [hc])
  · rw [hmove]
    simp only [List.mem_append]
    left; right
    simp
  · intro inputPath2 suffix2 ts2 msg2 d2 h2
    set fs2 := (moveToFailed fs inputPath stem suffix (some msg) failedRoot ts).1
      with hfs2
    by_cases hin2 : inputPath2 ∈ fs2
    · have hd2 : d2 = createFailureRunDir fs2 failedRoot stem ts2 := by
        unfold moveToFailed at h2
        rw [if_pos hin2] at h2
        match msg2 with
        | some m2 =>
            by_cases hm2 : m2 ≠ ""
            · simp only [if_pos hm2] at h2
              exact (Option.some.injEq .. ▸ h2).symm
            · simp only [if_neg hm2] at h2
              exact (Option.some.injEq .. ▸ h2).symm
        | none => exact (Option.some.injEq .. ▸ h2).symm
      intro hc
      have hf2 : createFailureRunDir fs2 failedRoot stem ts2 ∉ fs2 :=
        createFailureRunDir_fresh fs2 failedRoot stem ts2
      rw [← hd2, hc] at hf2
      exact hf2 hdirmem
    · unfold moveToFailed at h2
      rw [if_neg hin2] at h2
      exact absurd h2 (by simp)

/-- Witness for C6 at a concrete filesystem: a failure disposition of
`walk.png` reports the freshly created run directory. -/
theorem failure_run_dir_unique_witness :
    (moveToFailed [["ws", "inbox", "walk.png"]] ["ws", "inbox", "walk.png"]
        "walk" ".png" (some "boom") ["ws", "failed"] "20250101_000000").2.1 =
      some (createFailureRunDir [["ws", "inbox", "walk.png"]] ["ws", "failed"]
        "walk" "20250101_000000") :=
  (failure_run_dir_unique [["ws", "inbox", "walk.png"]] ["ws", "failed"]
      "walk" ".png" "20250101_000000" ["ws", "inbox", "walk.png"] "boom"
      (by decide) (by decide)).2.1.1


/-- C10: when the input file no longer exists, both disposition helpers are
no-ops on the filesystem: the file set is unchanged, and `_move_to_failed`
creates no run directory, writes no error log, and returns `(None, None)`. -/
theorem missing_input_disposition_noop (fs : List (List String))
    (inputPath : List String) (stem suffix : String)
    (msg : Option String) (targetRoot failedRoot : List String) (ts : String)
    (h : inputPath ∉ fs) :
    moveToProcessed fs inputPath stem suffix targetRoot = fs
    ∧ moveToFailed fs inputPath stem suffix msg failedRoot ts = (fs, none, none) := by
  constructor
  · unfold moveToProcessed
    rw [if_neg h]
  · unfold moveToFailed
    rw [if_neg h]

/-- Witness for C10 at a concrete filesystem missing the input. -/
theorem missing_input_disposition_noop_witness :
    moveToFailed [["ws", "out"]] ["ws", "inbox", "gone.png"] "gone" ".png"
        (some "boom") ["ws", "failed"] "20250101_000000" =
      ([["ws", "out"]], none, none) :=
  (missing_input_disposition_noop [["ws", "out"]] ["ws", "inbox", "gone.png"]
      "gone" ".png" (some "boom") ["ws", "processed"] ["ws", "failed"]
      "20250101_000000" (by decide)).2

/-! ## Inbox scanning (`server.py`: `list_inbox_files`) -/

/-- Lexicographic comparison of character lists, modelling Python string
comparison by code point. -/
def strLeB : List Char → List Char → Bool
  | [], _ => true
  | _ :: _, [] => false
  | a :: as, b :: bs =>
      if a < b then true
      else if b < a then false
      else strLeB as bs

/-- Python tuple comparison on `(st_mtime, entry.name)` keys, as used by
`sorted(entries)` and `heapq.nsmallest(limit, entries)`.  The third tuple
component (the path) never decides the order because two entries of one
directory cannot share a name. -/
def entryLe (a b : Nat × String) : Bool :=
  if a.1 < b.1 then true
  else if b.1 < a.1 then false
  else strLeB a.2.data b.2.data

/-- The relation form of `entryLe` used by the sorting model. -/
def EntryLE (a b : Nat × String) : Prop :=
  entryLe a b = true

instance : DecidableRel EntryLE :=
  fun _ _ => instDecidableEqBool _ _

/-- String comparison is transitive. -/
theorem strLeB_trans : ∀ a b c, strLeB a b = true → strLeB b c = true →
    strLeB a c = true := by
  intro a
  induction a with
  | nil => intro b c _ _; rfl
  | cons x xs ih =>
      intro b c h1 h2
      cases b with
      | nil => exact absurd h1 (by simp [strLeB])
      | cons y ys =>
          cases c with
          | nil => exact absurd h2 (by simp [strLeB])
          | cons z zs =>
              unfold strLeB at h1 h2 ⊢
              rcases lt_trichotomy x y with hxy | hxy | hxy
              · rcases lt_trichotomy y z with hyz | hyz | hyz
                · simp [lt_trans hxy hyz]
                · subst hyz; simp [hxy]
                · rw [if_neg (lt_asymm hyz), if_pos hyz] at h2
                  exact absurd h2 (by simp)
              · subst hxy
                rcases lt_trichotomy x z with hxz | hxz | hxz
                · simp [hxz]
                · subst hxz
                  rw [if_neg (lt_irrefl x), if_neg (lt_irrefl x)] at h1 h2 ⊢
                  exact ih ys zs h1 h2
                · rw [if_neg (lt_asymm hxz), if_pos hxz] at h2
                  exact absurd h2 (by simp)
              · rw [if_neg (lt_asymm hxy), if_pos hxy] at h1
                exact absurd h1 (by simp)

/-- String comparison is total. -/
theorem strLeB_total : ∀ a b, strLeB a b = true ∨ strLeB b a = true := by
  intro a
  induction a with
  | nil => intro b; left; rfl
  | cons x xs ih =>
      intro b
      cases b with
      | nil => right; rfl
      | cons y ys =>
          unfold strLeB
          rcases lt_trichotomy x y with hxy | hxy | hxy
          · left; simp [hxy]
          · subst hxy
            simp only [lt_self_iff_false, if_false]
            exact ih ys
          · right; simp [hxy]

instance : IsTrans (Nat × String) EntryLE where
  trans := by
    intro a b c h1 h2
    unfold EntryLE entryLe at h1 h2 ⊢
    rcases lt_trichotomy a.1 b.1 with hab | hab | hab
    · rcases lt_trichotomy b.1 c.1 with hbc | hbc | hbc
      · simp [lt_trans hab hbc]
      · rw [← hbc]; simp [hab]
      · rw [if_neg (lt_asymm hbc), if_pos hbc] at h2
        exact absurd h2 (by simp)
    · rcases lt_trichotomy b.1 c.1 with hbc | hbc | hbc
      · rw [← hab] at hbc
        simp [hbc]
      · have hac : a.1 = c.1 := hab.trans hbc
        rw [hab] at h1
        rw [hbc] at h2
        rw [hac]
        simp only [lt_self_iff_false, if_false] at h1 h2 ⊢
        exact strLeB_trans _ _ _ h1 h2
      · rw [if_neg (lt_asymm hbc), if_pos hbc] at h2
        exact absurd h2 (by simp)
    · rw [if_neg (lt_asymm hab), if_pos hab] at h1
      exact absurd h1 (by simp)

instance : IsTotal (Nat × String) EntryLE where
  total := by
    intro a b
    unfold EntryLE entryLe
    rcases lt_trichotomy a.1 b.1 with hab | hab | hab
    · left; simp [hab]
    · rcases strLeB_total a.2.data b.2.data with h | h
      · left
        rw [hab]
        simp only [lt_self_iff_false, if_false]
        exact h
      · right
        rw [← hab]
        simp only [lt_self_iff_false, if_false]
        exact h
    · right; simp [hab]


/-- Model of `pathlib`'s `Path(name).suffix`: the last-dot extension when the
last dot is strictly inside the name, else the empty string. -/
def pathSuffix (name : String) : String :=
  let cs := name.data
  if '.' ∈ cs then
    let k := cs.reverse.takeWhile (fun c => c ≠ '.')
    let i := cs.length - 1 - k.length
    if 0 < i ∧ i < cs.length - 1 then ⟨'.' :: k.reverse⟩ else ""
  else ""

/-- A directory entry as `os.scandir` yields it: a name, whether it is a
regular file, and the `stat` result (`none` models an `OSError`, which the
scanner skips). -/
structure DirEntry where
  name : String
  isFile : Bool
  statMtime : Option Nat
deriving DecidableEq, Repr

/-- The filtered `(st_mtime, name)` key list built by `list_inbox_files`:
non-files, names whose lower-cased suffix is not in `exts`, and entries whose
`stat` raises are all skipped. -/
def inboxEntries (dir : List DirEntry) (exts : List String) :
    List (Nat × String) :=
  dir.filterMap (fun e =>
    if !e.isFile then none
    else if pyLower (pathSuffix e.name) ∉ exts then none
    else match e.statMtime with
      | none => none
      | some mt => some (mt, e.name))

/-- The entries `list_inbox_files` selects, before projecting to paths: a
non-positive limit or a missing inbox directory (`FileNotFoundError`) yields
nothing; otherwise the `limit` smallest entries in ascending `(mtime, name)`
order — `heapq.nsmallest(limit, entries)` when more than `limit` entries
exist, `sorted(entries)` otherwise, both equal to the `limit`-prefix of the
ascending sort.  Python's `sorted` is modelled by insertion sort (both are
stable). -/
def listInboxSelected (dir : Option (List DirEntry)) (limit : Nat)
    (exts : List String) : List (Nat × String) :=
  if limit = 0 then []
  else match dir with
    | none => []
    | some entries =>
        let es := inboxEntries entries exts
        if es.length > limit then (List.insertionSort EntryLE es).take limit
        else List.insertionSort EntryLE es

/-- Model of `list_inbox_files` (`server.py` lines 113-139): the selected
entries' paths (here: names). -/
def listInboxFiles (dir : Option (List DirEntry)) (limit : Nat)
    (exts : List String) : List String :=
  (listInboxSelected dir limit exts).map (fun p => p.2)

/-- C8: the inbox scanner returns at most `limit` files, in ascending
`(mtime, name)` order — oldest first, ties broken by filename — and on the
spec's E10 instance (mtimes 100, 100, 200 and `limit = 2`) it returns the two
mtime-100 files in filename order. -/
theorem list_inbox_files_ordered :
    (∀ (dir : Option (List DirEntry)) (limit : Nat) (exts : List String),
        (listInboxFiles dir limit exts).length ≤ limit
        ∧ List.Sorted EntryLE (listInboxSelected dir limit exts)
        ∧ listInboxFiles dir limit exts =
            (listInboxSelected dir limit exts).map (fun p => p.2))
    ∧ listInboxFiles
        (some [{ name := "b.png", isFile := true, statMtime := some 200 },
               { name := "c.png", isFile := true, statMtime := some 100 },
               { name := "a.png", isFile := true, statMtime := some 100 }])
        2 [".png"] = ["a.png", "c.png"] := by
  constructor
  · intro dir limit exts
    refine ⟨?_, ?_, rfl⟩
    · unfold listInboxFiles listInboxSelected
      by_cases h0 : limit = 0
      · simp [h0]
      · rw [if_neg h0]
        match dir with
        | none => simp
        | some entries =>
            simp only [List.length_map]
            by_cases hlen : (inboxEntries entries exts).length > limit
            · rw [if_pos hlen]
              simp only [List.length_take]
              omega
            · rw [if_neg hlen]
              rw [(List.perm_insertionSort EntryLE _).length_eq]
              omega
    · unfold listInboxSelected
      by_cases h0 : limit = 0
      · simp [h0]
      · rw [if_neg h0]
        cases dir with
        | none => simp
        | some entries =>
            show List.Sorted EntryLE
              (if (inboxEntries entries exts).length > limit then
                (List.insertionSort EntryLE (inboxEntries entries exts)).take limit
              else List.insertionSort EntryLE (inboxEntries entries exts))
            by_cases hlen : (inboxEntries entries exts).length > limit
            · rw [if_pos hlen]
              exact List.Pairwise.sublist (List.take_sublist limit _)
                (List.sorted_insertionSort EntryLE _)
            · rw [if_neg hlen]
              exact List.sorted_insertionSort EntryLE _
  · decide

/-- Witness for C8 at a concrete inbox listing. -/
theorem list_inbox_files_ordered_witness :
    (listInboxFiles
        (some [{ name := "b.png", isFile := true, statMtime := some 200 },
               { name := "a.png", isFile := true, statMtime := some 100 }])
        1 [".png"]).length ≤ 1 :=
  (list_inbox_files_ordered.1
      (some [{ name := "b.png", isFile := true, statMtime := some 200 },
             { name := "a.png", isFile := true, statMtime := some 100 }])
      1 [".png"]).1

/-! ## Grid detector cache and error handling (`detector.py`) -/

/-- Model of `models.DetectionResult` as far as the detector claims consume
it (the float confidence is modelled with rationals). -/
structure DetectionResult where
  detected : Bool
  grid : Option GridConfig := none
  confidence : Rat := 0
  image_width : Nat := 0
  image_height : Nat := 0
  frame_width : Nat := 0
  frame_height : Nat := 0
  method : String := ""
  notes : List String := []
deriving DecidableEq, Repr

/-- The process-wide detector cache state: the `_CACHE` dict (keyed on
resolved path, file size and mtime) plus the `_CACHE_HITS` / `_CACHE_MISSES`
counters. -/
structure CacheState where
  cache : List ((String × Nat × Nat) × DetectionResult)
  hits : Nat
  misses : Nat
deriving DecidableEq, Repr

/-- The cache at process start. -/
def initialCache : CacheState :=
  { cache := [], hits := 0, misses := 0 }

/-- Model of one `detect_grid` call (`detector.py` lines 461-481).
`statResult = none` models an `OSError` from `path.stat()`, which makes
`_cache_key` return `None` and skips caching entirely.  `det` is the
`DetectionResult` the underlying `GridDetector().detect` would produce for
this call; it is consulted only on a cache miss, as in the source.  On a miss
the cache is cleared when it holds more than 256 entries, then the result is
stored (the key is absent at that point, so a dict store is an append). -/
def detectGridStep (st : CacheState) (resolvedPath : String)
    (statResult : Option (Nat × Nat)) (det : DetectionResult) :
    DetectionResult × CacheState :=
  match statResult with
  | none => (det, { st with misses := st.misses + 1 })
  | some sm =>
      let key := (resolvedPath, sm)
      match st.cache.lookup key with
      | some cached => (cached, { st with hits := st.hits + 1 })
      | none =>
          let base := if st.cache.length > 256 then [] else st.cache
          (det, { st with misses := st.misses + 1,
                          cache := base ++ [(key, det)] })

/-- Cache states reachable from process start through `detect_grid` calls. -/
inductive CacheReachable : CacheState → Prop
  | init : CacheReachable initialCache
  | step (st : CacheState) (p : String) (sr : Option (Nat × Nat))
      (det : DetectionResult) :
      CacheReachable st → CacheReachable (detectGridStep st p sr det).2

/-- One step never grows the cache beyond 257 entries. -/
theorem detectGridStep_length_le (st : CacheState) (p : String)
    (sr : Option (Nat × Nat)) (det : DetectionResult)
    (h : st.cache.length ≤ 257) :
    (detectGridStep st p sr det).2.cache.length ≤ 257 := by
  cases sr with
  | none => simpa [detectGridStep] using h
  | some sm =>
      cases hl : st.cache.lookup (p, sm) with
      | some cached => simpa [detectGridStep, hl] using h
      | none =>
          by_cases hb : st.cache.length > 256
          · simp [detectGridStep, hl, hb]
          · simp only [detectGridStep, hl, if_neg hb, List.length_append,
              List.length_cons, List.length_nil]
            omega

/-- A fold of `detect_grid` calls stays reachable. -/
theorem cacheReachable_foldl (l : List Nat) :
    ∀ st, CacheReachable st →
      CacheReachable (l.foldl
        (fun st i => (detectGridStep st "p" (some (i, 0)) { detected := false }).2)
        st) := by
  induction l with
  | nil => exact fun st h => h
  | cons i t ih =>
      intro st h
      exact ih _ (CacheReachable.step st "p" (some (i, 0)) { detected := false } h)

/-- The cache after 257 `detect_grid` calls on files with 257 distinct stat
keys, starting from an empty cache. -/
def overflowCache : CacheState :=
  (List.range 257).foldl
    (fun st i => (detectGridStep st "p" (some (i, 0)) { detected := false }).2)
    initialCache

set_option maxRecDepth 100000

/-- C7 counterexample: a reachable sequence of `detect_grid` calls leaves the
cache holding 257 entries — the clear fires only when the size already
exceeds 256 before the insert, so the claimed 256-entry bound is violated. -/
theorem detector_cache_overflow_257 :
    CacheReachable overflowCache
    ∧ overflowCache.cache.length = 257
    ∧ ¬ overflowCache.cache.length ≤ 256 := by
  refine ⟨cacheReachable_foldl (List.range 257) initialCache CacheReachable.init,
    by decide, by decide⟩

/-- C7 amended: the cache never holds more than 257 entries after any
`detect_grid` call (the full clear fires when the size exceeds 256 before an
insert); a second call on an unchanged file returns the first call's result
and increments the hit counter by exactly one, leaving cache and miss counter
unchanged; and a call whose `stat` fails counts a miss and leaves the cache
untouched. -/
theorem detector_cache_behaviour (st : CacheState) (p : String)
    (sm : Nat × Nat) (det det2 : DetectionResult)
    (hreach : CacheReachable st) :
    st.cache.length ≤ 257
    ∧ detectGridStep (detectGridStep st p (some sm) det).2 p (some sm) det2 =
      ((detectGridStep st p (some sm) det).1,
       { (detectGridStep st p (some sm) det).2 with
         hits := (detectGridStep st p (some sm) det).2.hits + 1 })
    ∧ detectGridStep st p none det = (det, { st with misses := st.misses + 1 }) := by
  refine ⟨?_, ?_, rfl⟩
  · induction hreach with
    | init => simp [initialCache]
    | step st' p' sr' det' _ ih => exact detectGridStep_length_le st' p' sr' det' ih
  · have hbase : ∀ (base : List ((String × Nat × Nat) × DetectionResult)),
        base.lookup (p, sm) = none →
        (base ++ [((p, sm), det)]).lookup (p, sm) = some det := by
      intro base hb
      rw [List.lookup_append, hb]
      simp [List.lookup]
    cases hl : st.cache.lookup (p, sm) with
    | some cached =>
        simp [detectGridStep, hl]
    | none =>
        by_cases hb : st.cache.length > 256
        · simp [detectGridStep, hl, hb, hbase [] (by simp [List.lookup])]
        · simp [detectGridStep, hl, hb, hbase st.cache hl]

/-- Witness for C7's amended theorem at a concrete state: starting from the
empty cache, the bound holds. -/
theorem detector_cache_behaviour_witness :
    initialCache.cache.length ≤ 257 :=
  (detector_cache_behaviour initialCache "p" (10, 20) { detected := false }
      { detected := true } CacheReachable.init).1

/-- Model of `GridDetector.detect` (`detector.py` lines 166-298) as far as its
error handling goes: the Pillow import is tried first; then the whole image
open / convert / analysis body runs inside one `try`.  `body` is the outcome
of that body — `Except.error e` when any step raises with message `e`,
`Except.ok r` when the analysis completes with result `r` — so the theorem
below quantifies over every possible analysis outcome. -/
def detectorDetect (pillowAvailable : Bool)
    (body : Except String DetectionResult) : DetectionResult :=
  if !pillowAvailable then
    { detected := false, notes := ["Pillow not installed, cannot detect grid"] }
  else
    match body with
    | .ok r => r
    | .error e => { detected := false, notes := ["Error analyzing image: " ++ e] }

/-- C9: `detect` is total over every failure channel — a missing image
library, a failing image open, or any analysis step raising — and in each
failure case returns a `DetectionResult` with `detected = false` and a
descriptive note instead of propagating the exception, while a completed
analysis is returned unchanged. -/
theorem detect_total_never_raises :
    (∀ body, (detectorDetect false body).detected = false
        ∧ (detectorDetect false body).notes =
            ["Pillow not installed, cannot detect grid"])
    ∧ (∀ e, (detectorDetect true (.error e)).detected = false
        ∧ (detectorDetect true (.error e)).notes = ["Error analyzing image: " ++ e])
    ∧ (∀ r, detectorDetect true (.ok r) = r) := by
  exact ⟨fun body => ⟨rfl, rfl⟩, fun e => ⟨rfl, rfl⟩, fun r => rfl⟩
